import Mathlib

/-!
Shallow embedding of the task-and-access core of the restaraunt-petproject
repository (the global-server service), together with proofs checking the
natural-language specification against it.

Conventions of the embedding:
* Python datetime values are embedded as integers: the code only ever
  compares them, and utcnow is passed in explicitly as a parameter named
  now (the code reads it once per call).
* SQLAlchemy model rows are embedded as structures holding the declared
  columns; Identity columns are allocated from per-table counters.
* A Python validator or constructor that can raise is embedded as a
  function into Except, the error payload being the exception message.
* Python None for a nullable column is Option.none; datetime objects are
  always truthy in Python, so the truthiness tests in the code coincide
  with Option.isSome.
-/

namespace Restaraunt

/-- Embeds enum AccessRole, src/global-server/src/database/types_/enums.py
lines 19 to 30.  Member names are kept; note the source gives member
inspect the misspelled string value inpect. -/
inductive AccessRole
  | read
  | create
  | edit
  | execute
  | inspect
  | delete
deriving DecidableEq, Repr

/-- String value of each AccessRole member as written in the source
(the inspect member has value inpect in the source, a typo kept here). -/
def AccessRole.value : AccessRole → String
  | .read => "read"
  | .create => "create"
  | .edit => "edit"
  | .execute => "execute"
  | .inspect => "inpect"
  | .delete => "delete"

/-- Iterating a Python Enum yields members in definition order; this is
the list produced by iterating AccessRole. -/
def AccessRole.all : List AccessRole :=
  [.read, .create, .edit, .execute, .inspect, .delete]

/-- Embeds enum TaskStatus, src/global-server/src/database/types_/enums.py
lines 85 to 93 (member complited is spelled as in the source). -/
inductive TaskStatus
  | created
  | execution_started
  | complited
  | rejected
  | failed
  | inspected
  | executed
deriving DecidableEq, Repr

/-- Embeds the _comprasion Literal type of
src/global-server/src/database/models.py line 29. -/
inductive Comprasion
  | eq
  | ne
  | gt
  | ge
  | lt
  | le
deriving DecidableEq, Repr

/-- The comparison operator the dictionary in _check_value picks for each
tag (models.py lines 36 to 43): method(value, criterion). -/
def comprasionMethod : Comprasion → Int → Int → Bool
  | .eq => fun value criterion => decide (value = criterion)
  | .ne => fun value criterion => decide (value ≠ criterion)
  | .gt => fun value criterion => decide (criterion < value)
  | .ge => fun value criterion => decide (criterion ≤ value)
  | .lt => fun value criterion => decide (value < criterion)
  | .le => fun value criterion => decide (value ≤ criterion)

/-- The message fragment the dictionary in _check_value picks for each
tag (models.py lines 36 to 43). -/
def comprasionText : Comprasion → String
  | .eq => "equals to"
  | .ne => "not equals to"
  | .gt => "greater than"
  | .ge => "greater than or equals to"
  | .lt => "lower than"
  | .le => "lower than or equals to"

/-- Embeds _check_value, src/global-server/src/database/models.py lines
32 to 45: raises ValueError if value does not meet criterion. -/
def check_value (value : Int) (value_name : String) (criterion : Int)
    (comprasion : Comprasion) : Except String Unit :=
  if comprasionMethod comprasion value criterion then
    Except.ok ()
  else
    Except.error
      (value_name ++ " must be " ++ comprasionText comprasion ++ " " ++ toString criterion)

/-- Embeds the columns of model Task, src/global-server/src/database/models.py
lines 3434 to 3540.  Foreign keys are plain identifiers; nullable DateTime
columns are Option Int. -/
structure Task where
  id : Nat
  type_id : Nat
  name : String
  comment : String
  status : TaskStatus
  target_id : Nat
  created : Int
  author_id : Nat
  changed : Bool
  start_execution : Option Int
  execution_started : Option Int
  fail_on_late_start : Bool
  complete_before : Option Int
  completed : Option Int
  fail_on_late_complete : Bool
  executor_id : Nat
  approved : Option Int
  inspector_id : Nat
deriving DecidableEq, Repr

/-- Embeds Task._validate_dates, models.py lines 3565 to 3568: the
validator registered for columns start_execution and complete_before.
It calls _check_value(v, k, utcnow(), ge) and returns v unchanged. -/
def Task.validate_dates (k : String) (v : Int) (now : Int) : Except String Int := do
  let _ ← check_value v k now Comprasion.ge
  pure v

/-- Embeds property Task.is_started_late, models.py lines 3570 to 3577,
exactly as written (including the direction of the comparison in the
branch where both datetimes are set). -/
def Task.is_started_late (t : Task) (now : Int) : Bool :=
  match t.start_execution with
  | none => false
  | some se =>
    match t.execution_started with
    | none => decide (se ≤ now)
    | some es => decide (es ≤ se)

/-- Embeds property Task.is_completed_late, models.py lines 3579 to 3586. -/
def Task.is_completed_late (t : Task) (now : Int) : Bool :=
  match t.complete_before with
  | none => false
  | some cb =>
    match t.completed with
    | none => decide (cb ≤ now)
    | some c => decide (cb < c)

/-- Embeds the columns of model SubTask, models.py lines 853 to 891. -/
structure SubTask where
  child_id : Nat
  parent_id : Nat
  priority : Int
deriving DecidableEq, Repr

/-- Python sorted(xs, key=attrgetter(priority)) is a stable ascending
sort by priority; insertion sort inserting each element before the first
strictly greater key implements exactly that function. -/
def insertByPriority (s : SubTask) : List SubTask → List SubTask
  | [] => [s]
  | a :: rest =>
    if s.priority ≤ a.priority then s :: a :: rest
    else a :: insertByPriority s rest

/-- Stable ascending sort by priority (see insertByPriority). -/
def sortedByPriority : List SubTask → List SubTask
  | [] => []
  | s :: rest => insertByPriority s (sortedByPriority rest)

/-- The for loop of Task.subtasks_by_priority, models.py lines 3596 to
3606, over the already sorted list: state is the pair of the level
accumulator and the result list.  As in the source, the function returns
result when the input is exhausted, without appending the pending level. -/
def bunchLoop : List SubTask → List SubTask → List (List SubTask) → List (List SubTask)
  | [], _level, result => result
  | s :: rest, level, result =>
    if level.getLast?.all (fun l => l.priority == s.priority) then
      bunchLoop rest (level ++ [s]) result
    else
      bunchLoop rest [s] (result ++ [level])

/-- Embeds property Task.subtasks_by_priority, models.py lines 3588 to
3606, as a function of the list of SubTask children. -/
def subtasks_by_priority (subtasks : List SubTask) : List (List SubTask) :=
  bunchLoop (sortedByPriority subtasks) [] []

/-- The validator registered by Task._validate_dates runs for a keyword
argument exactly when the caller supplies it: a supplied value is passed
through check_value, an absent one is left absent. -/
def validateOptDate (k : String) (v : Option Int) (now : Int) : Except String (Option Int) :=
  match v with
  | none => Except.ok none
  | some v2 => (Task.validate_dates k v2 now).map some

/-- Embeds constructing a models.Task followed by insertion through
endpoints._create_model (the only creation path in the repository; see
src/global-server/generation/general.py lines 68 to 84 for the caller).
The validators registered by Task._validate_dates run only for the
start_execution and complete_before keyword arguments; the created column
is not validated and, when the caller does not supply it, takes its
default _dt.utcnow at insertion (models.py lines 3479 to 3484). -/
def task_new (id : Nat) (type_id : Nat) (name : String) (comment : String)
    (status : TaskStatus) (target_id : Nat) (author_id : Nat)
    (executor_id : Nat) (inspector_id : Nat)
    (created : Option Int) (start_execution : Option Int)
    (execution_started : Option Int) (complete_before : Option Int)
    (completed : Option Int) (approved : Option Int)
    (now : Int) : Except String Task := do
  let se ← validateOptDate "start_execution" start_execution now
  let cb ← validateOptDate "complete_before" complete_before now
  pure
    { id := id
      type_id := type_id
      name := name
      comment := comment
      status := status
      target_id := target_id
      created := created.getD now
      author_id := author_id
      changed := false
      start_execution := se
      execution_started := execution_started
      fail_on_late_start := false
      complete_before := cb
      completed := completed
      fail_on_late_complete := false
      executor_id := executor_id
      approved := approved
      inspector_id := inspector_id }

/-- A Task value used as a base for concrete evaluations. -/
def baseTask : Task :=
  { id := 1
    type_id := 1
    name := "t"
    comment := ""
    status := TaskStatus.created
    target_id := 1
    created := 0
    author_id := 1
    changed := false
    start_execution := none
    execution_started := none
    fail_on_late_start := false
    complete_before := none
    completed := none
    fail_on_late_complete := false
    executor_id := 1
    approved := none
    inspector_id := 1 }

/-- The keys of globals() of module src/global-server/src/database/models.py
once it is loaded: the import aliases, the helper definitions, every model
class, the model union and decipher_abbreviation, in definition order,
preceded by the namespace entries CPython places in every module. -/
def modelsGlobals : List String :=
  ["__name__", "__doc__", "__package__", "__loader__", "__spec__", "__file__",
   "__cached__", "__builtins__",
   "_operator", "_re", "_t", "_date", "_dt", "_time", "_uuid", "_hash", "_sql",
   "_orm", "_schema", "_psql", "_EmailError", "_validate_email", "_ulid",
   "_types", "_Base", "_cfg", "_comprasion", "_check_value",
   "Actor", "Restaurant", "RestaurantExternalDepartment",
   "RestaurantExternalDepartmentWorkingHours", "RestaurantInternalDepartment",
   "RestaurantInternalSubDepartment", "DefaultActorTaskDelegation",
   "DefaultActor", "TaskType", "TaskTypeGroup", "TaskTypeGroupType",
   "ActorAccessLevel", "TaskTarget", "TaskTargetType", "TaskTargetTypeTarget",
   "SubTask", "User", "Verification", "RestaurantEmployeePosition",
   "RestaurantEmployeePositionAccessLevel", "RestaurantEmployee", "Customer",
   "Material", "MaterialStockBalance", "MaterialGroup", "MaterialSubGroup",
   "Supply", "SupplyItem", "Ingridient", "IngridientMaterial", "Product",
   "RestaurantProduct", "ProductIngridient", "CustomerFavoriteProduct",
   "CustomerShoppingCartProduct", "CustomerOrder", "CustomerOrderProduct",
   "OnlineOrder", "ProductAvailableExtraIngridient",
   "CustomerOrderProductIngridientChange", "CustomerOrderProductExtraIngridient",
   "Table", "TableLocation", "WaiterOrder", "Salary", "AllergicFlag",
   "MaterialAllergicFlag", "ProductCategory", "ProductCategoryProduct",
   "CustomerPayment", "DiscountGroup", "Discount", "RestaurantDiscount",
   "CustomerOrderDiscount", "DiscountOption", "DiscountOptionProduct",
   "SupplyOrder", "SupplyOrderItem", "WriteOffReason", "WriteOffReasonGroup",
   "WriteOff", "WriteOffItem", "SupplyPayment", "Tare", "TareGroup",
   "Inventory", "InventoryGroup", "InventorySubGroup", "Item", "Task",
   "model", "decipher_abbreviation"]

/-- Embeds DefaultActorTaskDelegation._validate_source, new models.py
lines 479 to 483: raises ValueError unless the assigned source starts
with self., returning the value unchanged otherwise. -/
def validate_source (source : String) : Except String String :=
  if !(source.startsWith "self.") then Except.error "Illegal source"
  else Except.ok source

/-- Embeds DefaultActorTaskDelegation._validate_attachments_type_name,
new models.py lines 485 to 489: raises ValueError when the assigned name
is not a key of the module globals, returning it unchanged otherwise. -/
def validate_attachments_type_name (name : String) : Except String String :=
  if name ∉ modelsGlobals then Except.error "Illegal attachments type name"
  else Except.ok name

/-- The keys of globals() of the older module
src/global-server/database/models.py (its import list differs slightly
from the newer module and nothing follows class Task). -/
def oldModelsGlobals : List String :=
  ["__name__", "__doc__", "__package__", "__loader__", "__spec__", "__file__",
   "__cached__", "__builtins__",
   "_operator", "_re", "_t", "_date", "_dt", "_time", "_cfg", "_hash", "_sql",
   "_orm", "_schema", "_EmailError", "_validate_email", "_check_type",
   "_types", "_Base", "_T", "_comprasion", "_check_value",
   "Actor", "Restaurant", "RestaurantExternalDepartment",
   "RestaurantExternalDepartmentWorkingHours", "RestaurantInternalDepartment",
   "RestaurantInternalSubDepartment", "DefaultActorTaskDelegation",
   "DefaultActor", "TaskType", "TaskTypeGroup", "TaskTypeGroupType",
   "ActorAccessLevel", "TaskTarget", "TaskTargetType", "TaskTargetTypeTarget",
   "SubTask", "User", "Verification", "RestaurantEmployeePosition",
   "RestaurantEmployeePositionAccessLevel", "RestaurantEmployee", "Customer",
   "Material", "MaterialStockBalance", "MaterialGroup", "MaterialSubGroup",
   "Supply", "SupplyItem", "Ingridient", "IngridientMaterial", "Product",
   "RestaurantProduct", "ProductIngridient", "CustomerFavoriteProduct",
   "CustomerShoppingCartProduct", "CustomerOrder", "CustomerOrderProduct",
   "OnlineOrder", "ProductAvailableExtraIngridient",
   "CustomerOrderProductIngridientChange", "CustomerOrderProductExtraIngridient",
   "Table", "TableLocation", "WaiterOrder", "Salary", "AllergicFlag",
   "MaterialAllergicFlag", "ProductCategory", "ProductCategoryProduct",
   "CustomerPayment", "DiscountGroup", "Discount", "RestaurantDiscount",
   "CustomerOrderDiscount", "DiscountOption", "DiscountOptionProduct",
   "SupplyOrder", "SupplyOrderItem", "WriteOffReason", "WriteOffReasonGroup",
   "WriteOff", "WriteOffItem", "SupplyPayment", "Tare", "TareGroup",
   "Inventory", "InventoryGroup", "InventorySubGroup", "Item", "Task"]

/-- Exceptions the delegation code of the older models.py can raise. -/
inductive PyErr
  | attributeError (attr : String)
  | typeError (msg : String)
  | keyError (key : String)
deriving DecidableEq, Repr

/-- Embeds a DefaultActorTaskDelegation instance of the older module
src/global-server/database/models.py, lines 338 to 453: the mapped
columns, plus the dictionary of instance attributes assigned outside the
mapper (model classes are identified by their names there).  A freshly
loaded instance has an empty dictionary until its reconstructor runs. -/
structure OldDelegation where
  default_actor_id : Nat
  incoming_task_type_id : Nat
  outcoming_task_type_id : Nat
  source : String
  filter_ : Option String
  attachments_type_name : String
  task_name : String
  task_comment : String
  task_start_execution : Int
  task_fail_on_late_start : Bool
  task_complete_before : Int
  task_fail_on_late_complete : Bool
  instance_attrs : List (String × String)
deriving DecidableEq, Repr

/-- Embeds reading an attribute that is not a mapped column: Python
returns the entry of the instance dictionary, or raises AttributeError
because neither the class nor the mapper defines such a name. -/
def OldDelegation.getattr (d : OldDelegation) (attr : String) : Except PyErr String :=
  match d.instance_attrs.lookup attr with
  | some v => Except.ok v
  | none => Except.error (PyErr.attributeError attr)

/-- Embeds the reconstructor DefaultActorTaskDelegation._set_result_type,
old models.py lines 352 to 354, run when an instance is loaded from the
database: it assigns the instance attribute named attachments_type the
module global named by the attachments_type_name column (a globals lookup
raises KeyError when the name is absent). -/
def OldDelegation.set_result_type (d : OldDelegation) : Except PyErr OldDelegation :=
  if d.attachments_type_name ∈ oldModelsGlobals then
    Except.ok
      { d with instance_attrs :=
          ("attachments_type", d.attachments_type_name) :: d.instance_attrs }
  else
    Except.error (PyErr.keyError d.attachments_type_name)

/-- Embeds DefaultActorTaskDelegation.get_attachments, old models.py
lines 431 to 443.  The guard reads the attribute named attachment_type
(without the letter s that the reconstructor writes); when the guard
would pass, the eval of the filter and source strings is outside this
embedding and the function returns the pair that would be evaluated. -/
def OldDelegation.get_attachments (d : OldDelegation) (attachments_type : String) :
    Except PyErr (Option String × String) := do
  let guardType ← d.getattr "attachment_type"
  if attachments_type ≠ guardType then
    Except.error (PyErr.typeError "wrong attachments type")
  else
    Except.ok (d.filter_, d.source)

/-- A delegation row as loaded from the database, before reconstruction. -/
def oldDemoDelegation : OldDelegation :=
  { default_actor_id := 1
    incoming_task_type_id := 1
    outcoming_task_type_id := 2
    source := "self.default_actor"
    filter_ := some "True"
    attachments_type_name := "Actor"
    task_name := "n"
    task_comment := ""
    task_start_execution := 0
    task_fail_on_late_start := false
    task_complete_before := 0
    task_fail_on_late_complete := false
    instance_attrs := [] }

/-- Embeds the columns of model DefaultActor, new models.py lines 492 to
523 (actor_id and name are declared unique). -/
structure DefaultActorRow where
  id : Nat
  actor_id : Nat
  name : String
deriving DecidableEq, Repr

/-- Embeds the columns of model Restaurant, new models.py lines 89 to 131
(default_actor_id, url and address are declared unique). -/
structure RestaurantRow where
  id : Nat
  default_actor_id : Nat
  url : String
  address : String
  accepts_online_orders : Bool
deriving DecidableEq, Repr

/-- Embeds the columns of model TaskType, new models.py lines 549 to 572
(name is declared unique). -/
structure TaskTypeRow where
  id : Nat
  name : String
deriving DecidableEq, Repr

/-- Embeds the columns of model TaskTypeGroup, new models.py lines 598 to
618 (name is declared unique). -/
structure TaskTypeGroupRow where
  id : Nat
  name : String
deriving DecidableEq, Repr

/-- Embeds the columns of model TaskTypeGroupType, new models.py lines
629 to 658 (composite primary key group_id, type_id). -/
structure TaskTypeGroupTypeRow where
  group_id : Nat
  type_id : Nat
deriving DecidableEq, Repr

/-- Embeds the columns of model Supply, new models.py lines 1472 to 1498.
Its task_target_id column is declared nullable False and indexed but,
unlike the other variant tables, without unique True. -/
structure SupplyRow where
  id : Nat
  restaurant_id : Nat
  task_target_id : Nat
deriving DecidableEq, Repr

/-- Embeds the columns of model ActorAccessLevel, new models.py lines 661
to 710 (task_target_id is declared unique; selected_target_id is the
nullable disposable-grant scope). -/
structure ActorAccessLevelRow where
  id : Nat
  actor_id : Nat
  task_type_id : Nat
  task_target_id : Nat
  role : AccessRole
  selected_target_id : Option Nat
deriving DecidableEq, Repr

/-- The database state over the tables of the embedding.  Actor rows
(models.py lines 48 to 66) and TaskTarget rows (lines 729 to 747) carry
only their id.  Identity columns are allocated from the per-table
counters.  The remaining tables of the module (Salary, WriteOff, the
menu and order tables, and so on) follow the same declaration pattern
and are not needed by the claims under check. -/
structure DBState where
  nextActorId : Nat
  nextDefaultActorId : Nat
  nextRestaurantId : Nat
  nextTaskTypeId : Nat
  nextTaskTypeGroupId : Nat
  nextTargetId : Nat
  nextSupplyId : Nat
  nextAccessLevelId : Nat
  nextTaskId : Nat
  actors : List Nat
  defaultActors : List DefaultActorRow
  restaurants : List RestaurantRow
  taskTypes : List TaskTypeRow
  taskTypeGroups : List TaskTypeGroupRow
  taskTypeGroupTypes : List TaskTypeGroupTypeRow
  taskTargets : List Nat
  supplies : List SupplyRow
  accessLevels : List ActorAccessLevelRow
  tasks : List Task
deriving DecidableEq, Repr

/-- The state of a freshly created database (generation general.py,
init_models: all tables empty, every Identity sequence at one). -/
def emptyDB : DBState :=
  { nextActorId := 1
    nextDefaultActorId := 1
    nextRestaurantId := 1
    nextTaskTypeId := 1
    nextTaskTypeGroupId := 1
    nextTargetId := 1
    nextSupplyId := 1
    nextAccessLevelId := 1
    nextTaskId := 1
    actors := []
    defaultActors := []
    restaurants := []
    taskTypes := []
    taskTypeGroups := []
    taskTypeGroupTypes := []
    taskTargets := []
    supplies := []
    accessLevels := []
    tasks := [] }

/-- Failures an insert through endpoints._create_model can hit: a model
validator raising ValueError, a declared constraint rejected at commit,
or a query helper raising.  The repository defines no TargetIntegrityError
and none of its database-layer errors concerns TaskTarget variant
cardinality. -/
inductive DBError
  | validationError (msg : String)
  | uniqueViolation
  | foreignKeyViolation
  | primaryKeyViolation
  | queryError (msg : String)
deriving DecidableEq, Repr

/-- Python str.isupper, used by DefaultActor._validate_name (new
models.py lines 542 to 546): true when the string has at least one cased
character and no lowercase one (ASCII letters suffice for the names this
repository uses). -/
def pythonIsUpper (sname : String) : Bool :=
  sname.toList.any (fun c => c.isUpper || c.isLower)
    && sname.toList.all (fun c => !c.isLower)

/-- Inserting an Actor() through _create_model: the row has only its
Identity id and nothing can fail. -/
def insertActor (s : DBState) : DBState × Nat :=
  ({ s with actors := s.actors ++ [s.nextActorId], nextActorId := s.nextActorId + 1 },
   s.nextActorId)

/-- Inserting a DefaultActor(actor_id, name): the name validator runs at
construction, the foreign key and the two unique constraints at commit. -/
def insertDefaultActor (s : DBState) (actor_id : Nat) (dname : String) :
    Except DBError (DBState × Nat) :=
  if !(pythonIsUpper dname) then
    Except.error (DBError.validationError "Default actor's name must be in UPPER CASE")
  else if actor_id ∉ s.actors then
    Except.error DBError.foreignKeyViolation
  else if s.defaultActors.any (fun da => da.actor_id == actor_id) then
    Except.error DBError.uniqueViolation
  else if s.defaultActors.any (fun da => da.name == dname) then
    Except.error DBError.uniqueViolation
  else
    Except.ok
      ({ s with
          defaultActors := s.defaultActors ++ [⟨s.nextDefaultActorId, actor_id, dname⟩]
          nextDefaultActorId := s.nextDefaultActorId + 1 },
       s.nextDefaultActorId)

/-- Inserting a Restaurant(default_actor_id, url, address, ...): foreign
key to DefaultActor, unique default_actor_id, url and address. -/
def insertRestaurant (s : DBState) (default_actor_id : Nat) (url address : String)
    (accepts_online_orders : Bool) : Except DBError (DBState × Nat) :=
  if s.defaultActors.all (fun da => da.id != default_actor_id) then
    Except.error DBError.foreignKeyViolation
  else if s.restaurants.any (fun r => r.default_actor_id == default_actor_id) then
    Except.error DBError.uniqueViolation
  else if s.restaurants.any (fun r => r.url == url) then
    Except.error DBError.uniqueViolation
  else if s.restaurants.any (fun r => r.address == address) then
    Except.error DBError.uniqueViolation
  else
    Except.ok
      ({ s with
          restaurants := s.restaurants ++
            [⟨s.nextRestaurantId, default_actor_id, url, address, accepts_online_orders⟩]
          nextRestaurantId := s.nextRestaurantId + 1 },
       s.nextRestaurantId)

/-- Inserting a TaskType(name): unique name. -/
def insertTaskType (s : DBState) (tname : String) : Except DBError (DBState × Nat) :=
  if s.taskTypes.any (fun tt => tt.name == tname) then
    Except.error DBError.uniqueViolation
  else
    Except.ok
      ({ s with
          taskTypes := s.taskTypes ++ [⟨s.nextTaskTypeId, tname⟩]
          nextTaskTypeId := s.nextTaskTypeId + 1 },
       s.nextTaskTypeId)

/-- Inserting a TaskTypeGroup(name): unique name. -/
def insertTaskTypeGroup (s : DBState) (gname : String) : Except DBError (DBState × Nat) :=
  if s.taskTypeGroups.any (fun g => g.name == gname) then
    Except.error DBError.uniqueViolation
  else
    Except.ok
      ({ s with
          taskTypeGroups := s.taskTypeGroups ++ [⟨s.nextTaskTypeGroupId, gname⟩]
          nextTaskTypeGroupId := s.nextTaskTypeGroupId + 1 },
       s.nextTaskTypeGroupId)

/-- Inserting a TaskTypeGroupType(group_id, type_id): both foreign keys
and the composite primary key. -/
def insertTaskTypeGroupType (s : DBState) (group_id type_id : Nat) :
    Except DBError DBState :=
  if s.taskTypeGroups.all (fun g => g.id != group_id) then
    Except.error DBError.foreignKeyViolation
  else if s.taskTypes.all (fun tt => tt.id != type_id) then
    Except.error DBError.foreignKeyViolation
  else if s.taskTypeGroupTypes.any
      (fun gt => gt.group_id == group_id && gt.type_id == type_id) then
    Except.error DBError.primaryKeyViolation
  else
    Except.ok { s with taskTypeGroupTypes := s.taskTypeGroupTypes ++ [⟨group_id, type_id⟩] }

/-- Inserting a TaskTarget(): the row has only its Identity id. -/
def insertTaskTarget (s : DBState) : DBState × Nat :=
  ({ s with taskTargets := s.taskTargets ++ [s.nextTargetId], nextTargetId := s.nextTargetId + 1 },
   s.nextTargetId)

/-- Inserting a Supply(restaurant_id, task_target_id): the two foreign
keys; the source declares no uniqueness on task_target_id, so nothing
prevents a second Supply on the same target. -/
def insertSupply (s : DBState) (restaurant_id task_target_id : Nat) :
    Except DBError (DBState × Nat) :=
  if s.restaurants.all (fun r => r.id != restaurant_id) then
    Except.error DBError.foreignKeyViolation
  else if task_target_id ∉ s.taskTargets then
    Except.error DBError.foreignKeyViolation
  else
    Except.ok
      ({ s with
          supplies := s.supplies ++ [⟨s.nextSupplyId, restaurant_id, task_target_id⟩]
          nextSupplyId := s.nextSupplyId + 1 },
       s.nextSupplyId)

/-- Inserting an ActorAccessLevel: the foreign keys to Actor, TaskType
and TaskTarget (twice when a selected target is given) and the unique
constraint on task_target_id. -/
def insertActorAccessLevel (s : DBState) (actor_id task_type_id task_target_id : Nat)
    (role : AccessRole) (selected_target_id : Option Nat) :
    Except DBError (DBState × Nat) :=
  if actor_id ∉ s.actors then
    Except.error DBError.foreignKeyViolation
  else if s.taskTypes.all (fun tt => tt.id != task_type_id) then
    Except.error DBError.foreignKeyViolation
  else if task_target_id ∉ s.taskTargets then
    Except.error DBError.foreignKeyViolation
  else if selected_target_id.any (fun t => t ∉ s.taskTargets) then
    Except.error DBError.foreignKeyViolation
  else if s.accessLevels.any (fun al => al.task_target_id == task_target_id) then
    Except.error DBError.uniqueViolation
  else
    Except.ok
      ({ s with
          accessLevels := s.accessLevels ++
            [⟨s.nextAccessLevelId, actor_id, task_type_id, task_target_id, role,
              selected_target_id⟩]
          nextAccessLevelId := s.nextAccessLevelId + 1 },
       s.nextAccessLevelId)

/-- Inserting a Task: construction through task_new (running the date
validators), then the foreign keys to TaskType, TaskTarget and the three
Actor references at commit. -/
def insertTask (s : DBState) (type_id : Nat) (tname tcomment : String)
    (status : TaskStatus) (target_id author_id executor_id inspector_id : Nat)
    (created start_execution execution_started complete_before completed approved : Option Int)
    (now : Int) : Except DBError (DBState × Nat) :=
  match task_new s.nextTaskId type_id tname tcomment status target_id author_id
      executor_id inspector_id created start_execution execution_started
      complete_before completed approved now with
  | Except.error msg => Except.error (DBError.validationError msg)
  | Except.ok t =>
    if s.taskTypes.all (fun tt => tt.id != type_id) then
      Except.error DBError.foreignKeyViolation
    else if target_id ∉ s.taskTargets then
      Except.error DBError.foreignKeyViolation
    else if author_id ∉ s.actors then
      Except.error DBError.foreignKeyViolation
    else if executor_id ∉ s.actors then
      Except.error DBError.foreignKeyViolation
    else if inspector_id ∉ s.actors then
      Except.error DBError.foreignKeyViolation
    else
      Except.ok
        ({ s with tasks := s.tasks ++ [t], nextTaskId := s.nextTaskId + 1 },
         s.nextTaskId)

/-- Embeds create_root, src/global-server/generation/general.py lines 27
to 33: fails when an Actor with id one exists, inserts an Actor and fails
unless the new id is one. -/
def create_root (s : DBState) : Except DBError DBState :=
  if 1 ∈ s.actors then
    Except.error (DBError.queryError "Cannot create root: Actor with id=1 already exists")
  else if (insertActor s).2 ≠ 1 then
    Except.error (DBError.queryError "Failed: root actor id != 1")
  else
    Except.ok (insertActor s).1

/-- The body of the double loop of create_system_da (generation
general.py lines 53 to 84) for one TaskType id and one role: create a
TaskTarget, grant the SYSTEM actor the role on the type anchored at that
target, and record the already executed grant task (author one, executor
two, inspector one, all of created, execution_started, completed and
approved at the current time). -/
def systemGrantStep (actorId grantTypeId : Nat) (now : Int) (tid : Nat)
    (s : DBState) (role : AccessRole) : Except DBError DBState := do
  let p2 ← insertActorAccessLevel (insertTaskTarget s).1 actorId tid
    (insertTaskTarget s).2 role none
  let p3 ← insertTask p2.1 grantTypeId "Grant SYSTEM access rights" "deployment"
    TaskStatus.executed (insertTaskTarget s).2 1 2 1 (some now) none (some now) none
    (some now) (some now) now
  pure p3.1

/-- The select at the start of create_system_da (generation general.py
lines 44 to 48): the id of the TaskType named grant actor rights; the
one() call fails unless exactly one row matches. -/
def selectGrantTypeId (s : DBState) : Except DBError Nat :=
  match (s.taskTypes.filter (fun tt => tt.name == "grant actor rights")).map
      TaskTypeRow.id with
  | [tid] => Except.ok tid
  | _ => Except.error (DBError.queryError "one")

/-- Embeds create_system_da, src/global-server/generation/general.py
lines 36 to 86: select the id of the TaskType named grant actor rights,
create an Actor and the SYSTEM DefaultActor over it, then for every
TaskType id and every AccessRole run systemGrantStep.  The Python loop
reads utcnow once per iteration; the embedding passes one clock value,
which no claim under check depends on.  Returns the new state and the
DefaultActor id. -/
def create_system_da (s : DBState) (now : Int) : Except DBError (DBState × Nat) := do
  let grantTypeId ← selectGrantTypeId s
  let pDA ← insertDefaultActor (insertActor s).1 (insertActor s).2 "SYSTEM"
  let s3 ← (pDA.1.taskTypes.map TaskTypeRow.id).foldlM
    (fun acc tid =>
      AccessRole.all.foldlM (systemGrantStep (insertActor s).2 grantTypeId now tid) acc)
    pDA.1
  pure (s3, pDA.2)

/-- Embeds create_task_type, generation general.py lines 97 to 113:
insert the TaskType, then link it to every TaskTypeGroup whose name is in
groups_names. -/
def create_task_type (s : DBState) (tname : String) (groups_names : List String) :
    Except DBError (DBState × Nat) := do
  let pT ← insertTaskType s tname
  let s2 ← ((pT.1.taskTypeGroups.filter
      (fun g => groups_names.contains g.name)).map TaskTypeGroupRow.id).foldlM
    (fun acc gid => insertTaskTypeGroupType acc gid pT.2) pT.1
  pure (s2, pT.2)

/-- Embeds create_task_type_group, generation general.py lines 89 to 94. -/
def create_task_type_group (s : DBState) (gname : String) :
    Except DBError (DBState × Nat) :=
  insertTaskTypeGroup s gname

/-- The operations the repository defines over this state: the inserts
that endpoints._create_model commits, and the generation CRUDs of
generation general.py.  init_models (drop and recreate every table) is a
deployment-time schema reset, documented as never used at runtime, and is
not an operation over populated state. -/
inductive SysOp
  | addActor
  | addDefaultActor (actor_id : Nat) (dname : String)
  | addRestaurant (default_actor_id : Nat) (url address : String)
      (accepts_online_orders : Bool)
  | addTaskType (tname : String)
  | addTaskTypeGroup (gname : String)
  | addTaskTypeGroupType (group_id type_id : Nat)
  | addTaskTarget
  | addSupply (restaurant_id task_target_id : Nat)
  | addAccessLevel (actor_id task_type_id task_target_id : Nat) (role : AccessRole)
      (selected_target_id : Option Nat)
  | addTask (type_id : Nat) (tname tcomment : String) (status : TaskStatus)
      (target_id author_id executor_id inspector_id : Nat)
      (created start_execution execution_started complete_before completed approved : Option Int)
      (now : Int)
  | genCreateRoot
  | genCreateSystemDA (now : Int)
  | genCreateTaskType (tname : String) (groups_names : List String)
  | genCreateTaskTypeGroup (gname : String)

/-- Applying one operation to the state. -/
def applySysOp (s : DBState) : SysOp → Except DBError DBState
  | .addActor => Except.ok (insertActor s).1
  | .addDefaultActor actor_id dname => (insertDefaultActor s actor_id dname).map Prod.fst
  | .addRestaurant da url addr online => (insertRestaurant s da url addr online).map Prod.fst
  | .addTaskType tname => (insertTaskType s tname).map Prod.fst
  | .addTaskTypeGroup gname => (insertTaskTypeGroup s gname).map Prod.fst
  | .addTaskTypeGroupType gid tid => insertTaskTypeGroupType s gid tid
  | .addTaskTarget => Except.ok (insertTaskTarget s).1
  | .addSupply rid tid => (insertSupply s rid tid).map Prod.fst
  | .addAccessLevel a tt ta role sel => (insertActorAccessLevel s a tt ta role sel).map Prod.fst
  | .addTask type_id tname tcomment status target author executor inspector
      created se es cb c approved now =>
    (insertTask s type_id tname tcomment status target author executor inspector
      created se es cb c approved now).map Prod.fst
  | .genCreateRoot => create_root s
  | .genCreateSystemDA now => (create_system_da s now).map Prod.fst
  | .genCreateTaskType tname groups => (create_task_type s tname groups).map Prod.fst
  | .genCreateTaskTypeGroup gname => (create_task_type_group s gname).map Prod.fst

/-- Running a sequence of operations, stopping at the first error (an
error aborts the triggering request). -/
def runSysOps (s : DBState) : List SysOp → Except DBError DBState
  | [] => Except.ok s
  | op :: rest => do
      let s2 ← applySysOp s op
      runSysOps s2 rest

/-- Number of variant rows of the embedded variant tables referencing a
TaskTarget id (the tables left out of the embedding could only add to
this count). -/
def variantCount (s : DBState) (target : Nat) : Nat :=
  (s.supplies.filter (fun r => r.task_target_id == target)).length
    + (s.accessLevels.filter (fun r => r.task_target_id == target)).length

/-- Operations reaching a state that holds one bare TaskTarget. -/
def c4OpsZero : List SysOp :=
  [SysOp.addActor, SysOp.addDefaultActor 1 "SYSTEM",
   SysOp.addRestaurant 1 "url" "addr" true, SysOp.addTaskTarget]

/-- The same run extended with two Supply rows on the same target. -/
def c4OpsTwo : List SysOp :=
  c4OpsZero ++ [SysOp.addSupply 1 1, SysOp.addSupply 1 1]

/-- A run that populates two different variants (a Supply and an
ActorAccessLevel) on the same target. -/
def c4OpsMixed : List SysOp :=
  c4OpsZero ++ [SysOp.addTaskType "stocktaking", SysOp.addSupply 1 1,
    SysOp.addAccessLevel 1 1 1 AccessRole.read none]

/-- A run that attempts a second ActorAccessLevel on a target already
carrying one. -/
def c4OpsDupGrant : List SysOp :=
  c4OpsZero ++ [SysOp.addTaskType "stocktaking",
    SysOp.addAccessLevel 1 1 1 AccessRole.read none,
    SysOp.addAccessLevel 1 1 1 AccessRole.edit none]

/-- A bootstrap state for create_system_da: the root actor exists and one
TaskType, the one named grant actor rights, is registered. -/
def sysDemoState : DBState :=
  { emptyDB with
      nextActorId := 2
      actors := [1]
      nextTaskTypeId := 2
      taskTypes := [⟨1, "grant actor rights"⟩] }

/-- The state and DefaultActor id create_system_da produces on
sysDemoState. -/
def sysDemoResult : DBState × Nat :=
  match create_system_da sysDemoState 5 with
  | Except.ok p => p
  | Except.error _ => (emptyDB, 0)

/-- A task already in a terminal state, sitting in the store. -/
def c7DemoTask : Task :=
  { baseTask with status := TaskStatus.executed }

/-- A state holding one executed task. -/
def c7DemoState : DBState :=
  { emptyDB with nextTaskId := 2, tasks := [c7DemoTask] }

/-- A run over c7DemoState that creates a fresh actor, type, target and
task. -/
def c7DemoOps : List SysOp :=
  [SysOp.addActor, SysOp.addTaskType "supply", SysOp.addTaskTarget,
   SysOp.addTask 1 "n" "" TaskStatus.created 1 1 1 1
     none none none none none none 0]

/-- The state the c7DemoOps run produces. -/
def c7DemoResult : DBState :=
  match runSysOps c7DemoState c7DemoOps with
  | Except.ok s => s
  | Except.error _ => emptyDB

/-- The task stored under id one in the state the c7DemoOps run
produces. -/
def c7FinalTask : Task :=
  ((c7DemoResult.tasks.filter (fun u => u.id == 1)).headD baseTask)

/-- Both state components a run must keep reachable for the SYSTEM
bootstrap argument: already stored access levels and default actors stay
stored. -/
def Keeps (s s2 : DBState) : Prop :=
  (∀ al, al ∈ s.accessLevels → al ∈ s2.accessLevels)
    ∧ (∀ da, da ∈ s.defaultActors → da ∈ s2.defaultActors)

/-- The status-stability invariant tracked for one task: its id is below
the Identity cursor and every stored task sharing its id has its status. -/
def TaskQ (t : Task) (s : DBState) : Prop :=
  t.id < s.nextTaskId ∧ ∀ u ∈ s.tasks, u.id = t.id → u.status = t.status

/-- C1.  The code contradicts the lateness law for started tasks: with
start_execution set to 5 and execution_started set to 7 (started strictly
after the deadline, so the claim requires is_started_late to be true) the
property evaluates to false, and with execution_started set to 3 (started
before the deadline, so the claim requires false) it evaluates to true.
The branch at models.py line 3577 tests execution_started less or equal
start_execution, the negation of the specified predicate. -/
theorem is_started_late_bug_eval :
    Task.is_started_late
      { baseTask with start_execution := some 5, execution_started := some 7 } 0 = false
    ∧ (5 : Int) < 7
    ∧ Task.is_started_late
      { baseTask with start_execution := some 5, execution_started := some 3 } 0 = true
    ∧ ¬ (5 : Int) < 3 := by
  refine ⟨rfl, by decide, rfl, by decide⟩

/-- C2.  On children with priorities 2, 2, 1, 3 the code returns only the
bunches of priority 1 and priority 2: the loop in subtasks_by_priority
never appends the last pending level to the result, so the priority 3
bunch (and in general the final bunch) is dropped, contradicting the
specified value with three bunches. -/
theorem subtasks_by_priority_drops_last_bunch :
    subtasks_by_priority
      [⟨1, 0, 2⟩, ⟨2, 0, 2⟩, ⟨3, 0, 1⟩, ⟨4, 0, 3⟩]
      = [[⟨3, 0, 1⟩], [⟨1, 0, 2⟩, ⟨2, 0, 2⟩]]
    ∧ (⟨4, 0, 3⟩ : SubTask) ∉
        (subtasks_by_priority [⟨1, 0, 2⟩, ⟨2, 0, 2⟩, ⟨3, 0, 1⟩, ⟨4, 0, 3⟩]).flatten := by
  refine ⟨rfl, by decide⟩

/-- C3.  is_completed_late follows the lateness law: false when
complete_before is unset; when complete_before is set and completed is
unset it is true exactly when now is at or after complete_before; when
both are set it is true exactly when completed is strictly after
complete_before. -/
theorem is_completed_late_spec (t : Task) (now : Int) :
    (t.complete_before = none → t.is_completed_late now = false)
    ∧ (∀ cb, t.complete_before = some cb → t.completed = none →
        (t.is_completed_late now = true ↔ cb ≤ now))
    ∧ (∀ cb c, t.complete_before = some cb → t.completed = some c →
        (t.is_completed_late now = true ↔ cb < c)) := by
  refine ⟨?_, ?_, ?_⟩
  · intro h
    simp [Task.is_completed_late, h]
  · intro cb hcb hc
    simp [Task.is_completed_late, hcb, hc]
  · intro cb c hcb hc
    simp [Task.is_completed_late, hcb, hc]

/-- Concrete check of is_completed_late_spec on the three shapes of task. -/
theorem is_completed_late_spec_check :
    Task.is_completed_late baseTask 10 = false
    ∧ (Task.is_completed_late { baseTask with complete_before := some 5 } 10 = true ↔ (5 : Int) ≤ 10)
    ∧ (Task.is_completed_late
        { baseTask with complete_before := some 5, completed := some 7 } 10 = true ↔ (5 : Int) < 7) :=
  ⟨(is_completed_late_spec baseTask 10).1 rfl,
   (is_completed_late_spec { baseTask with complete_before := some 5 } 10).2.1 5 rfl rfl,
   (is_completed_late_spec
      { baseTask with complete_before := some 5, completed := some 7 } 10).2.2 5 7 rfl rfl⟩

/-- C8.  The validator for start_execution and complete_before rejects a
datetime strictly earlier than the current time with ValueError (whose
message is the one _check_value builds for the ge tag) and accepts any
datetime at or after the current time, returning it unchanged. -/
theorem validate_dates_spec (k : String) (v now : Int) :
    (v < now → Task.validate_dates k v now
        = Except.error (k ++ " must be " ++ comprasionText Comprasion.ge ++ " " ++ toString now))
    ∧ (now ≤ v → Task.validate_dates k v now = Except.ok v) := by
  constructor
  · intro h
    have hm : comprasionMethod Comprasion.ge v now = false := by
      simp [comprasionMethod]
      omega
    simp [Task.validate_dates, check_value, hm]
  · intro h
    have hm : comprasionMethod Comprasion.ge v now = true := by
      simp [comprasionMethod]
      omega
    simp [Task.validate_dates, check_value, hm]

/-- Concrete check of validate_dates_spec in both directions. -/
theorem validate_dates_spec_check :
    Task.validate_dates "start_execution" 3 5
      = Except.error
          ("start_execution" ++ " must be " ++ comprasionText Comprasion.ge ++ " " ++ toString (5 : Int))
    ∧ Task.validate_dates "complete_before" 5 5 = Except.ok 5 :=
  ⟨(validate_dates_spec "start_execution" 3 5).1 (by decide),
   (validate_dates_spec "complete_before" 5 5).2 (by decide)⟩

/-- C5.  Task creation does not reject a backdated created timestamp: with
the server time at 100, a client-supplied created equal to 0 is accepted
and stored as given.  Only start_execution and complete_before are
validated; no validator covers created, contradicting the no-backdating
documentation of the Task model. -/
theorem task_new_accepts_backdated_created :
    task_new 1 1 "t" "" TaskStatus.created 1 1 1 1
        (some 0) none none none none none 100
      = Except.ok { baseTask with created := 0 }
    ∧ (0 : Int) < 100 := by
  refine ⟨rfl, by decide⟩

/-- C9.  The source validator accepts exactly the strings starting with
self. (unchanged) and raises ValueError on the rest; the attachments type
name validator accepts exactly the names present in the module globals
(unchanged) and raises ValueError on the rest. -/
theorem delegation_validators_spec (source name : String) :
    (validate_source source = Except.ok source ↔ source.startsWith "self." = true)
    ∧ (validate_source source = Except.error "Illegal source"
        ↔ source.startsWith "self." = false)
    ∧ (validate_attachments_type_name name = Except.ok name ↔ name ∈ modelsGlobals)
    ∧ (validate_attachments_type_name name = Except.error "Illegal attachments type name"
        ↔ name ∉ modelsGlobals) := by
  refine ⟨?_, ?_, ?_, ?_⟩
  · by_cases h : source.startsWith "self." <;> simp [validate_source, h]
  · by_cases h : source.startsWith "self." <;> simp [validate_source, h]
  · by_cases h : name ∈ modelsGlobals <;> simp [validate_attachments_type_name, h]
  · by_cases h : name ∈ modelsGlobals <;> simp [validate_attachments_type_name, h]

/-- C10.  On a reconstructed delegation whose attachments_type_name is
Actor, get_attachments raises AttributeError for the attribute named
attachment_type no matter which class is passed: with the matching class
Actor it does not proceed past the guard, and with a different class User
it raises AttributeError rather than the TypeError the claim predicts,
because the guard reads attachment_type while the reconstructor assigns
attachments_type. -/
theorem get_attachments_attribute_error :
    (oldDemoDelegation.set_result_type.bind
        (fun d => d.get_attachments "Actor"))
      = Except.error (PyErr.attributeError "attachment_type")
    ∧ (oldDemoDelegation.set_result_type.bind
        (fun d => d.get_attachments "User"))
      = Except.error (PyErr.attributeError "attachment_type") := by
  refine ⟨rfl, rfl⟩

/-- A successful Except bind factors through a successful first leg. -/
theorem exceptBindOk {ε α β : Type} {x : Except ε α} {f : α → Except ε β} {b : β}
    (h : x >>= f = Except.ok b) : ∃ a, x = Except.ok a ∧ f a = Except.ok b := by
  cases x with
  | error e => exact absurd h (by simp [Bind.bind, Except.bind])
  | ok a => exact ⟨a, rfl, h⟩

/-- A successful Except map factors through a successful argument. -/
theorem exceptMapOk {ε α β : Type} {x : Except ε α} {f : α → β} {b : β}
    (h : x.map f = Except.ok b) : ∃ a, x = Except.ok a ∧ f a = b := by
  cases x with
  | error e => exact absurd h (by simp [Except.map])
  | ok a =>
    refine ⟨a, rfl, ?_⟩
    simpa [Except.map] using h

theorem keeps_refl (s : DBState) : Keeps s s :=
  ⟨fun _ h => h, fun _ h => h⟩

theorem keeps_trans {a b c : DBState} (h1 : Keeps a b) (h2 : Keeps b c) : Keeps a c :=
  ⟨fun al h => h2.1 al (h1.1 al h), fun da h => h2.2 da (h1.2 da h)⟩

/-- Any Except-valued fold preserves a state predicate its step
preserves. -/
theorem foldlM_preserves {α : Type} (P : DBState → Prop)
    (f : DBState → α → Except DBError DBState)
    (hf : ∀ s a s2, f s a = Except.ok s2 → P s → P s2) :
    ∀ (l : List α) (s s2 : DBState),
      List.foldlM f s l = Except.ok s2 → P s → P s2 := by
  intro l
  induction l with
  | nil =>
    intro s s2 h hp
    simp only [List.foldlM] at h
    cases h
    exact hp
  | cons a as ih =>
    intro s s2 h hp
    simp only [List.foldlM] at h
    obtain ⟨s1, h1, h2⟩ := exceptBindOk h
    exact ih s1 s2 h2 (hf s a s1 h1 hp)

theorem insertDefaultActor_ok {s : DBState} {actor_id : Nat} {dname : String}
    {s2 : DBState} {i : Nat}
    (h : insertDefaultActor s actor_id dname = Except.ok (s2, i)) :
    s2 = { s with
            defaultActors := s.defaultActors ++ [⟨s.nextDefaultActorId, actor_id, dname⟩]
            nextDefaultActorId := s.nextDefaultActorId + 1 }
      ∧ i = s.nextDefaultActorId := by
  unfold insertDefaultActor at h
  split_ifs at h
  all_goals first
    | (simp only [Except.ok.injEq, Prod.mk.injEq] at h
       exact ⟨h.1.symm, h.2.symm⟩)
    | exact absurd h (by intro hc; exact Except.noConfusion hc)

theorem insertRestaurant_ok {s : DBState} {da : Nat} {url addr : String} {online : Bool}
    {s2 : DBState} {i : Nat}
    (h : insertRestaurant s da url addr online = Except.ok (s2, i)) :
    s2 = { s with
            restaurants := s.restaurants ++ [⟨s.nextRestaurantId, da, url, addr, online⟩]
            nextRestaurantId := s.nextRestaurantId + 1 } := by
  unfold insertRestaurant at h
  split_ifs at h
  all_goals first
    | (simp only [Except.ok.injEq, Prod.mk.injEq] at h
       exact h.1.symm)
    | exact absurd h (by intro hc; exact Except.noConfusion hc)

theorem insertTaskType_ok {s : DBState} {tname : String} {s2 : DBState} {i : Nat}
    (h : insertTaskType s tname = Except.ok (s2, i)) :
    s2 = { s with
            taskTypes := s.taskTypes ++ [⟨s.nextTaskTypeId, tname⟩]
            nextTaskTypeId := s.nextTaskTypeId + 1 } := by
  unfold insertTaskType at h
  split_ifs at h
  all_goals first
    | (simp only [Except.ok.injEq, Prod.mk.injEq] at h
       exact h.1.symm)
    | exact absurd h (by intro hc; exact Except.noConfusion hc)

theorem insertTaskTypeGroup_ok {s : DBState} {gname : String} {s2 : DBState} {i : Nat}
    (h : insertTaskTypeGroup s gname = Except.ok (s2, i)) :
    s2 = { s with
            taskTypeGroups := s.taskTypeGroups ++ [⟨s.nextTaskTypeGroupId, gname⟩]
            nextTaskTypeGroupId := s.nextTaskTypeGroupId + 1 } := by
  unfold insertTaskTypeGroup at h
  split_ifs at h
  all_goals first
    | (simp only [Except.ok.injEq, Prod.mk.injEq] at h
       exact h.1.symm)
    | exact absurd h (by intro hc; exact Except.noConfusion hc)

theorem insertTaskTypeGroupType_ok {s : DBState} {gid tid : Nat} {s2 : DBState}
    (h : insertTaskTypeGroupType s gid tid = Except.ok s2) :
    s2 = { s with taskTypeGroupTypes := s.taskTypeGroupTypes ++ [⟨gid, tid⟩] } := by
  unfold insertTaskTypeGroupType at h
  split_ifs at h
  all_goals first
    | (simp only [Except.ok.injEq] at h
       exact h.symm)
    | exact absurd h (by intro hc; exact Except.noConfusion hc)

theorem insertSupply_ok {s : DBState} {rid tid : Nat} {s2 : DBState} {i : Nat}
    (h : insertSupply s rid tid = Except.ok (s2, i)) :
    s2 = { s with
            supplies := s.supplies ++ [⟨s.nextSupplyId, rid, tid⟩]
            nextSupplyId := s.nextSupplyId + 1 } := by
  unfold insertSupply at h
  split_ifs at h
  all_goals first
    | (simp only [Except.ok.injEq, Prod.mk.injEq] at h
       exact h.1.symm)
    | exact absurd h (by intro hc; exact Except.noConfusion hc)

theorem insertActorAccessLevel_ok {s : DBState} {a tt ta : Nat} {r : AccessRole}
    {sel : Option Nat} {s2 : DBState} {i : Nat}
    (h : insertActorAccessLevel s a tt ta r sel = Except.ok (s2, i)) :
    s2 = { s with
            accessLevels := s.accessLevels ++ [⟨s.nextAccessLevelId, a, tt, ta, r, sel⟩]
            nextAccessLevelId := s.nextAccessLevelId + 1 } := by
  unfold insertActorAccessLevel at h
  split_ifs at h
  all_goals first
    | (simp only [Except.ok.injEq, Prod.mk.injEq] at h
       exact h.1.symm)
    | exact absurd h (by intro hc; exact Except.noConfusion hc)

theorem task_new_id {id type_id : Nat} {tname tcomment : String} {status : TaskStatus}
    {target author executor inspector : Nat}
    {created se es cb c approved : Option Int} {now : Int} {t : Task}
    (h : task_new id type_id tname tcomment status target author executor inspector
        created se es cb c approved now = Except.ok t) :
    t.id = id := by
  unfold task_new at h
  obtain ⟨sev, hse, h⟩ := exceptBindOk h
  obtain ⟨cbv, hcb, h⟩ := exceptBindOk h
  have h3 := Except.ok.inj h
  subst h3
  rfl

theorem insertTask_ok {s : DBState} {type_id : Nat} {tname tcomment : String}
    {status : TaskStatus} {target author executor inspector : Nat}
    {created se es cb c approved : Option Int} {now : Int} {s2 : DBState} {i : Nat}
    (h : insertTask s type_id tname tcomment status target author executor inspector
        created se es cb c approved now = Except.ok (s2, i)) :
    ∃ t : Task, t.id = s.nextTaskId
      ∧ s2 = { s with tasks := s.tasks ++ [t], nextTaskId := s.nextTaskId + 1 } := by
  unfold insertTask at h
  split at h
  · exact absurd h (by simp)
  · rename_i t hnew
    split_ifs at h
    all_goals first
      | (simp only [Except.ok.injEq, Prod.mk.injEq] at h
         exact ⟨t, task_new_id hnew, h.1.symm⟩)
      | exact absurd h (by intro hc; exact Except.noConfusion hc)

/-- C4 counterexample.  The exactly-one invariant fails on reachable
states: after inserting a bare TaskTarget its variant count is zero, and
inserting two Supply rows on the same target succeeds (no operation of
the repository raises any TargetIntegrityError, which does not exist in
the code), giving a variant count of two. -/
theorem task_target_invariant_counterexample :
    ((runSysOps emptyDB c4OpsZero).map
        (fun s => (decide (1 ∈ s.taskTargets), variantCount s 1)))
      = Except.ok (true, 0)
    ∧ ((runSysOps emptyDB c4OpsTwo).map (fun s => variantCount s 1)) = Except.ok 2 := by
  exact ⟨rfl, rfl⟩

/-- C4 amended.  TaskTarget variant population is constrained only by the
constraints each variant table declares: a Supply and an ActorAccessLevel
on the same target coexist (two different variants), and a second
ActorAccessLevel on an already granted target is rejected by that tables
unique constraint on task_target_id, not by a TargetIntegrityError. -/
theorem task_target_variants_unconstrained :
    ((runSysOps emptyDB c4OpsMixed).map (fun s => variantCount s 1)) = Except.ok 2
    ∧ runSysOps emptyDB c4OpsDupGrant = Except.error DBError.uniqueViolation := by
  exact ⟨rfl, rfl⟩

theorem accessRole_mem_all (r : AccessRole) : r ∈ AccessRole.all := by
  cases r <;> simp [AccessRole.all]

/-- What one iteration of the create_system_da loop does to the state:
one fresh target, one grant row for the given type and role, one grant
task with a fresh id. -/
theorem systemGrantStep_ok {actorId grantTypeId : Nat} {now : Int} {tid : Nat}
    {s s3 : DBState} {role : AccessRole}
    (h : systemGrantStep actorId grantTypeId now tid s role = Except.ok s3) :
    s3.accessLevels = s.accessLevels
        ++ [⟨s.nextAccessLevelId, actorId, tid, s.nextTargetId, role, none⟩]
    ∧ s3.defaultActors = s.defaultActors
    ∧ s3.taskTypes = s.taskTypes
    ∧ (∃ t, t.id = s.nextTaskId ∧ s3.tasks = s.tasks ++ [t])
    ∧ s3.nextTaskId = s.nextTaskId + 1 := by
  unfold systemGrantStep at h
  obtain ⟨p2, hA, h⟩ := exceptBindOk h
  obtain ⟨p3, hT, h⟩ := exceptBindOk h
  obtain ⟨s2v, i2⟩ := p2
  obtain ⟨s3v, i3⟩ := p3
  have hfin : s3v = s3 := Except.ok.inj h
  subst hfin
  have hrec2 := insertActorAccessLevel_ok hA
  subst hrec2
  obtain ⟨t, htid, hrec3⟩ := insertTask_ok hT
  subst hrec3
  exact ⟨rfl, rfl, rfl, ⟨t, htid, rfl⟩, rfl⟩

/-- The inner loop of create_system_da: it keeps what is stored and ends
with a grant for the given type and every role it processed. -/
theorem roleFold_grants {actorId grantTypeId : Nat} {now : Int} {tid : Nat} :
    ∀ (roles : List AccessRole) (s s2 : DBState),
      List.foldlM (systemGrantStep actorId grantTypeId now tid) s roles = Except.ok s2 →
      Keeps s s2 ∧ ∀ r ∈ roles, ∃ al, al ∈ s2.accessLevels ∧ al.actor_id = actorId
        ∧ al.task_type_id = tid ∧ al.role = r := by
  intro roles
  induction roles with
  | nil =>
    intro s s2 h
    simp only [List.foldlM] at h
    have h2 : s = s2 := Except.ok.inj h
    subst h2
    exact ⟨keeps_refl s, by simp⟩
  | cons r rest ih =>
    intro s s2 h
    simp only [List.foldlM] at h
    obtain ⟨s1, h1, h2⟩ := exceptBindOk h
    have hstep := systemGrantStep_ok h1
    have hk1 : Keeps s s1 :=
      ⟨fun al hal => by rw [hstep.1]; exact List.mem_append_left _ hal,
       fun da hda => by rw [hstep.2.1]; exact hda⟩
    obtain ⟨hk2, hrest⟩ := ih s1 s2 h2
    refine ⟨keeps_trans hk1 hk2, ?_⟩
    intro r2 hr2
    rcases List.mem_cons.mp hr2 with heq | hmem
    · subst heq
      refine ⟨⟨s.nextAccessLevelId, actorId, tid, s.nextTargetId, r2, none⟩,
        ?_, rfl, rfl, rfl⟩
      apply hk2.1
      rw [hstep.1]
      exact List.mem_append_right _ (List.mem_singleton.mpr rfl)
    · exact hrest r2 hmem

/-- The outer loop of create_system_da: after it, every processed type
carries a grant for every role. -/
theorem typeFold_grants {actorId grantTypeId : Nat} {now : Int} :
    ∀ (tids : List Nat) (s s2 : DBState),
      List.foldlM
        (fun acc tid =>
          List.foldlM (systemGrantStep actorId grantTypeId now tid) acc AccessRole.all)
        s tids = Except.ok s2 →
      Keeps s s2 ∧ ∀ tid ∈ tids, ∀ r : AccessRole, ∃ al, al ∈ s2.accessLevels
        ∧ al.actor_id = actorId ∧ al.task_type_id = tid ∧ al.role = r := by
  intro tids
  induction tids with
  | nil =>
    intro s s2 h
    simp only [List.foldlM] at h
    have h2 : s = s2 := Except.ok.inj h
    subst h2
    exact ⟨keeps_refl s, by simp⟩
  | cons tid rest ih =>
    intro s s2 h
    simp only [List.foldlM] at h
    obtain ⟨s1, h1, h2⟩ := exceptBindOk h
    obtain ⟨hk1, hgr⟩ := roleFold_grants AccessRole.all s s1 h1
    obtain ⟨hk2, hrest⟩ := ih s1 s2 h2
    refine ⟨keeps_trans hk1 hk2, ?_⟩
    intro tid2 htid2 r
    rcases List.mem_cons.mp htid2 with heq | hmem
    · subst heq
      obtain ⟨al, hal, h3, h4, h5⟩ := hgr r (accessRole_mem_all r)
      exact ⟨al, hk2.1 al hal, h3, h4, h5⟩
    · exact hrest tid2 hmem r

/-- C6.  When create_system_da succeeds, the DefaultActor it returns is
stored, is named SYSTEM, and its actor holds an ActorAccessLevel for
every TaskType of the starting state and every AccessRole, so a SYSTEM
authored task of any type is always authorizable. -/
theorem create_system_da_grants_all (s : DBState) (now : Int) (s2 : DBState) (daId : Nat)
    (h : create_system_da s now = Except.ok (s2, daId)) :
    ∃ da, da ∈ s2.defaultActors ∧ da.id = daId ∧ da.name = "SYSTEM"
      ∧ ∀ tt ∈ s.taskTypes, ∀ role : AccessRole,
          ∃ al, al ∈ s2.accessLevels ∧ al.actor_id = da.actor_id
            ∧ al.task_type_id = tt.id ∧ al.role = role := by
  unfold create_system_da at h
  obtain ⟨gtid, _hq, h⟩ := exceptBindOk h
  obtain ⟨pDA, hDA, h⟩ := exceptBindOk h
  obtain ⟨s3, hfold, h⟩ := exceptBindOk h
  obtain ⟨sDAv, daIdv⟩ := pDA
  obtain ⟨hrec, hdaid⟩ := insertDefaultActor_ok hDA
  subst hrec
  have hfin := Except.ok.inj h
  have hs2 : s3 = s2 := congrArg Prod.fst hfin
  have hdaId : daIdv = daId := congrArg Prod.snd hfin
  subst hs2
  subst hdaId
  obtain ⟨hk, hgr⟩ := typeFold_grants _ _ _ hfold
  refine ⟨⟨s.nextDefaultActorId, (insertActor s).2, "SYSTEM"⟩, ?_, hdaid.symm, rfl, ?_⟩
  · apply hk.2
    exact List.mem_append_right _ (List.mem_singleton.mpr rfl)
  · intro tt htt role
    obtain ⟨al, hal, h3, h4, h5⟩ :=
      hgr tt.id (List.mem_map_of_mem TaskTypeRow.id htt) role
    exact ⟨al, hal, h3, h4, h5⟩

/-- Concrete check of create_system_da_grants_all on a bootstrap state
with the root actor and the grant actor rights TaskType. -/
theorem create_system_da_grants_all_check :
    ∃ da, da ∈ sysDemoResult.1.defaultActors ∧ da.id = sysDemoResult.2
      ∧ da.name = "SYSTEM"
      ∧ ∀ tt ∈ sysDemoState.taskTypes, ∀ role : AccessRole,
          ∃ al, al ∈ sysDemoResult.1.accessLevels ∧ al.actor_id = da.actor_id
            ∧ al.task_type_id = tt.id ∧ al.role = role :=
  create_system_da_grants_all sysDemoState 5 sysDemoResult.1 sysDemoResult.2 rfl

theorem taskQ_insertTask {s : DBState} {type_id : Nat} {tname tcomment : String}
    {status : TaskStatus} {target author executor inspector : Nat}
    {created se es cb c approved : Option Int} {now : Int} {s2 : DBState} {i : Nat}
    {t : Task}
    (h : insertTask s type_id tname tcomment status target author executor inspector
        created se es cb c approved now = Except.ok (s2, i))
    (hq : TaskQ t s) : TaskQ t s2 := by
  obtain ⟨tk, htk, hs2⟩ := insertTask_ok h
  subst hs2
  refine ⟨Nat.lt_succ_of_lt hq.1, ?_⟩
  intro u hu hid
  rcases List.mem_append.mp hu with h1 | h2
  · exact hq.2 u h1 hid
  · have hu2 : u = tk := List.mem_singleton.mp h2
    subst hu2
    rw [htk] at hid
    exact absurd hq.1 (by omega)

theorem taskQ_systemGrantStep {actorId grantTypeId : Nat} {now : Int} {tid : Nat}
    {s s3 : DBState} {role : AccessRole} {t : Task}
    (h : systemGrantStep actorId grantTypeId now tid s role = Except.ok s3)
    (hq : TaskQ t s) : TaskQ t s3 := by
  have hstep := systemGrantStep_ok h
  obtain ⟨tk, htk, htasks⟩ := hstep.2.2.2.1
  refine ⟨by rw [hstep.2.2.2.2]; exact Nat.lt_succ_of_lt hq.1, ?_⟩
  intro u hu hid
  rw [htasks] at hu
  rcases List.mem_append.mp hu with h1 | h2
  · exact hq.2 u h1 hid
  · have hu2 : u = tk := List.mem_singleton.mp h2
    subst hu2
    rw [htk] at hid
    exact absurd hq.1 (by omega)

theorem taskQ_create_system_da {s : DBState} {now : Int} {p : DBState × Nat} {t : Task}
    (h : create_system_da s now = Except.ok p) (hq : TaskQ t s) : TaskQ t p.1 := by
  unfold create_system_da at h
  obtain ⟨gtid, _hq2, h⟩ := exceptBindOk h
  obtain ⟨pDA, hDA, h⟩ := exceptBindOk h
  obtain ⟨s3, hfold, h⟩ := exceptBindOk h
  obtain ⟨sDAv, daIdv⟩ := pDA
  obtain ⟨hrec, _⟩ := insertDefaultActor_ok hDA
  subst hrec
  have hfin := Except.ok.inj h
  have hq2 : TaskQ t s3 := by
    refine foldlM_preserves (TaskQ t) _ ?_ _ _ s3 hfold hq
    intro sa tid sb hf hqq
    exact foldlM_preserves (TaskQ t) _
      (fun sx r sy hy hqy => taskQ_systemGrantStep hy hqy) AccessRole.all sa sb hf hqq
  have hp1 : s3 = p.1 := congrArg Prod.fst hfin
  exact hp1 ▸ hq2

theorem taskQ_create_task_type {s : DBState} {tname : String}
    {groups_names : List String} {p : DBState × Nat} {t : Task}
    (h : create_task_type s tname groups_names = Except.ok p) (hq : TaskQ t s) :
    TaskQ t p.1 := by
  unfold create_task_type at h
  obtain ⟨pT, hT, h⟩ := exceptBindOk h
  obtain ⟨sTv, iT⟩ := pT
  have hrec := insertTaskType_ok hT
  subst hrec
  obtain ⟨s2, hfold, h⟩ := exceptBindOk h
  have hfin := Except.ok.inj h
  have hq2 : TaskQ t s2 := by
    refine foldlM_preserves (TaskQ t) _ ?_ _ _ s2 hfold hq
    intro sa gid sb hf hqq
    have hrec2 := insertTaskTypeGroupType_ok hf
    subst hrec2
    exact hqq
  have hp1 : s2 = p.1 := congrArg Prod.fst hfin
  exact hp1 ▸ hq2

/-- No operation of the repository rewrites a stored task: each one only
appends rows, and a task it appends carries a fresh id. -/
theorem taskQ_applySysOp {s s2 : DBState} {op : SysOp} {t : Task}
    (h : applySysOp s op = Except.ok s2) (hq : TaskQ t s) : TaskQ t s2 := by
  cases op with
  | addActor =>
    have h2 : (insertActor s).1 = s2 := Except.ok.inj h
    subst h2
    exact hq
  | addDefaultActor a n =>
    obtain ⟨⟨sv, iv⟩, hins, hmap⟩ := exceptMapOk h
    obtain ⟨hrec, _⟩ := insertDefaultActor_ok hins
    subst hrec
    exact hmap ▸ hq
  | addRestaurant da url addr online =>
    obtain ⟨⟨sv, iv⟩, hins, hmap⟩ := exceptMapOk h
    have hrec := insertRestaurant_ok hins
    subst hrec
    exact hmap ▸ hq
  | addTaskType tn =>
    obtain ⟨⟨sv, iv⟩, hins, hmap⟩ := exceptMapOk h
    have hrec := insertTaskType_ok hins
    subst hrec
    exact hmap ▸ hq
  | addTaskTypeGroup gn =>
    obtain ⟨⟨sv, iv⟩, hins, hmap⟩ := exceptMapOk h
    have hrec := insertTaskTypeGroup_ok hins
    subst hrec
    exact hmap ▸ hq
  | addTaskTypeGroupType gid tid =>
    have hrec := insertTaskTypeGroupType_ok h
    subst hrec
    exact hq
  | addTaskTarget =>
    have h2 : (insertTaskTarget s).1 = s2 := Except.ok.inj h
    subst h2
    exact hq
  | addSupply rid tid =>
    obtain ⟨⟨sv, iv⟩, hins, hmap⟩ := exceptMapOk h
    have hrec := insertSupply_ok hins
    subst hrec
    exact hmap ▸ hq
  | addAccessLevel a tt ta role sel =>
    obtain ⟨⟨sv, iv⟩, hins, hmap⟩ := exceptMapOk h
    have hrec := insertActorAccessLevel_ok hins
    subst hrec
    exact hmap ▸ hq
  | addTask type_id tn tc status target author executor inspector
      created se es cb c approved now =>
    obtain ⟨⟨sv, iv⟩, hins, hmap⟩ := exceptMapOk h
    exact hmap ▸ taskQ_insertTask hins hq
  | genCreateRoot =>
    have h2 : create_root s = Except.ok s2 := h
    unfold create_root at h2
    split_ifs at h2
    all_goals first
      | (have h3 : (insertActor s).1 = s2 := Except.ok.inj h2
         subst h3
         exact hq)
      | exact absurd h2 (by intro hc; exact Except.noConfusion hc)
  | genCreateSystemDA now =>
    obtain ⟨p, hc, hmap⟩ := exceptMapOk h
    exact hmap ▸ taskQ_create_system_da hc hq
  | genCreateTaskType tn groups =>
    obtain ⟨p, hc, hmap⟩ := exceptMapOk h
    exact hmap ▸ taskQ_create_task_type hc hq
  | genCreateTaskTypeGroup gn =>
    obtain ⟨⟨sv, iv⟩, hins, hmap⟩ := exceptMapOk h
    have hrec := insertTaskTypeGroup_ok hins
    subst hrec
    exact hmap ▸ hq

theorem taskQ_runSysOps :
    ∀ (ops : List SysOp) (s s2 : DBState) (t : Task),
      runSysOps s ops = Except.ok s2 → TaskQ t s → TaskQ t s2 := by
  intro ops
  induction ops with
  | nil =>
    intro s s2 t h hq
    simp only [runSysOps] at h
    have h2 : s = s2 := Except.ok.inj h
    subst h2
    exact hq
  | cons op rest ih =>
    intro s s2 t h hq
    simp only [runSysOps] at h
    obtain ⟨s1, h1, h2⟩ := exceptBindOk h
    exact ih s1 s2 t h2 (taskQ_applySysOp h1 hq)

/-- C7.  A stored task in a terminal status (executed, failed or
rejected) keeps that status under every sequence of the repository
operations that succeeds: no operation rewrites a stored row, so any
task of the final state sharing its id still carries the status. -/
theorem terminal_status_immutable (s s2 : DBState) (ops : List SysOp) (t : Task)
    (hid : t.id < s.nextTaskId) (htmem : t ∈ s.tasks)
    (hterm : t.status = TaskStatus.executed ∨ t.status = TaskStatus.failed
      ∨ t.status = TaskStatus.rejected)
    (huniq : ∀ u ∈ s.tasks, u.id = t.id → u.status = t.status)
    (hrun : runSysOps s ops = Except.ok s2) :
    ∀ u ∈ s2.tasks, u.id = t.id → u.status = t.status :=
  (taskQ_runSysOps ops s s2 t hrun ⟨hid, huniq⟩).2

/-- Concrete check of terminal_status_immutable: after a run that inserts
an actor, a type, a target and a fresh task, the task stored under id one
still carries the executed status. -/
theorem terminal_status_immutable_check :
    c7FinalTask.status = TaskStatus.executed :=
  terminal_status_immutable c7DemoState c7DemoResult c7DemoOps c7DemoTask
    (by decide) (by decide) (Or.inl rfl) (by decide) rfl
    c7FinalTask (by decide) (by decide)

end Restaraunt
